import Mathlib

/-!
Verification of the process-supervision core of `start.py` (Medium Blog
Platform launcher).

The script is embedded shallowly.  Pure helpers (`test_port`,
`find_free_port`, `check_url`, `run_command`) become Lean functions over an
explicit oracle describing the outside world (socket connect results, HTTP
responses, subprocess outcomes).  The `start_all` workflow and its nested
`cleanup` routine become functions from such an oracle to a trace of
observable events (status messages, spawns, signals, log dumps) together
with a final outcome (a `sys.exit` code, or reaching the idle wait loop
with the tracked process handles).

Modelling conventions, stated once:
* Console output is modelled by `Event.status` / `Event.plainPrint` events
  for the messages that mark control-flow decisions; purely decorative
  prints (blank lines, ANSI colors, banners, progress dots) are elided.
* `time.sleep` is modelled by the accumulated sleep-seconds counter of
  `await_healthy`; the event trace does not repeat it.
* The MongoDB advisory gate (`input(...)` at start.py:499) is modelled as
  the operator pressing Enter (continue); an interrupt at that prompt is
  outside every claim considered here.
* CPython `Popen` semantics are modelled faithfully where they matter:
  `terminate()` / `kill()` first poll the child and send no signal once the
  child has exited (so they are no-ops on a stopped process), and
  `wait(timeout)` returns immediately on a reaped child.
* File `close()` is modelled as non-raising (and it is idempotent, as in
  Python); the `try/except` guards around the close calls in `cleanup`
  therefore never fire in the model.
* `splitlines` is modelled for newline-separated text (`\n` only).
-/

namespace StartScript

/-! ## PortProbe: start.py lines 48-61 -/

/-- `test_port` (start.py:48-54): connect to localhost:port; in use iff the
OS connect result code is 0.  The oracle `connectEx` gives the result of
`sock.connect_ex(("localhost", port))`. -/
def test_port (connectEx : Nat → Int) (port : Nat) : Bool :=
  connectEx port == 0

/-- The `for port in range(start_port, start_port + max_attempts)` loop of
`find_free_port` (start.py:58-61), by recursion on the number of ports left
to try. -/
def find_free_port_loop (connectEx : Nat → Int) : Nat → Nat → Option Nat
  | _, 0 => none
  | port, n + 1 =>
    if !(test_port connectEx port) then some port
    else find_free_port_loop connectEx (port + 1) n

/-- `find_free_port` (start.py:56-61): first port in
`[start_port, start_port + max_attempts)` that is not in use, else `None`.
The Python default `max_attempts=10` is passed explicitly by callers here. -/
def find_free_port (connectEx : Nat → Int) (start_port max_attempts : Nat) : Option Nat :=
  find_free_port_loop connectEx start_port max_attempts

/-! ## HealthProbe: start.py lines 460-467 -/

/-- Result of one `urllib.request.urlopen` call: either a response object
with an HTTP status, or any raised exception (DNS failure, refused
connection, timeout, `HTTPError`, ...). -/
inductive HttpResult where
  | response (status : Nat)
  | exn
deriving DecidableEq

/-- `check_url` (start.py:460-467): true iff the GET completed and
`response.status == 200`; the bare `except:` maps every exception to
`False`.  Totality of this Lean function is the "never raises" part. -/
def check_url (get : HttpResult) : Bool :=
  match get with
  | .response status => status == 200
  | .exn => false

/-! ## run_command: start.py lines 106-132 -/

/-- The fields of a `subprocess.CompletedProcess` that `run_command`
inspects. -/
structure CompletedProcess where
  returncode : Int
  stdout : String
  stderr : String
deriving DecidableEq

/-- Outcome of the `subprocess.run` call inside `run_command`: either a
completed process, or an exception (whose `str(e)` is the carried message).
Command-string tokenisation (start.py:109-110) only changes which command
the OS runs, and is absorbed into this oracle. -/
inductive RunOutcome where
  | completed (r : CompletedProcess)
  | raised (msg : String)
deriving DecidableEq

/-- `run_command` (start.py:106-132): on an exception, `(False, "", str(e))`;
with `show_output` the output is not captured, so `(rc == 0, "", "")`;
otherwise `(rc == 0, stdout, stderr)`. -/
def run_command (outcome : RunOutcome) (show_output : Bool) : Bool × String × String :=
  match outcome with
  | .raised e => (false, "", e)
  | .completed r =>
    if show_output then (r.returncode == 0, "", "")
    else (r.returncode == 0, r.stdout, r.stderr)

/-! ## The health-poll loop: start.py lines 586-594 and 658-666

`for i in range(30): if check_url(...): started = True; break;
time.sleep(2)`.  `probe k` is the result of the k-th attempt (1-based).
The function returns `(started, attempts_made, seconds_slept)`. -/

def await_healthy_aux (probe : Nat → Bool) (interval : Nat) :
    Nat → Nat → Nat → Bool × Nat × Nat
  | 0, done, slept => (false, done, slept)
  | fuel + 1, done, slept =>
    if probe (done + 1) then (true, done + 1, slept)
    else await_healthy_aux probe interval fuel (done + 1) (slept + interval)

/-- The bounded health-poll loop with `max_attempts` attempts and
`interval` seconds of `time.sleep` after every failed attempt (the sleep
runs even after the final failed attempt, since it precedes the loop test
in the Python body). -/
def await_healthy (probe : Nat → Bool) (max_attempts interval : Nat) : Bool × Nat × Nat :=
  await_healthy_aux probe interval max_attempts 0 0

lemma await_healthy_aux_fail (probe : Nat → Bool) (interval : Nat) :
    ∀ fuel done slept, (∀ j, done < j → j ≤ done + fuel → probe j = false) →
      await_healthy_aux probe interval fuel done slept =
        (false, done + fuel, slept + fuel * interval) := by
  intro fuel
  induction fuel with
  | zero => intro done slept _; simp [await_healthy_aux]
  | succ n ih =>
    intro done slept h
    have hp : probe (done + 1) = false := h _ (by omega) (by omega)
    rw [await_healthy_aux, hp]
    simp only [Bool.false_eq_true, if_false]
    rw [ih (done + 1) (slept + interval) (by intro j h1 h2; exact h j (by omega) (by omega))]
    have h1 : done + 1 + n = done + (n + 1) := by omega
    have h2 : slept + interval + n * interval = slept + (n + 1) * interval := by
      rw [Nat.succ_mul]; generalize n * interval = t; omega
    rw [h1, h2]

lemma await_healthy_aux_success (probe : Nat → Bool) (interval : Nat) :
    ∀ fuel done slept K, done < K → K ≤ done + fuel →
      (∀ j, done < j → j < K → probe j = false) → probe K = true →
      await_healthy_aux probe interval fuel done slept =
        (true, K, slept + (K - 1 - done) * interval) := by
  intro fuel
  induction fuel with
  | zero => intro done slept K h1 h2 _ _; omega
  | succ n ih =>
    intro done slept K h1 h2 hb hK
    by_cases hc : K = done + 1
    · subst hc
      rw [await_healthy_aux, hK]
      simp only [if_true]
      have : done + 1 - 1 - done = 0 := by omega
      rw [this]
      simp
    · have hd : done + 1 < K := by omega
      have hp : probe (done + 1) = false := hb _ (by omega) hd
      rw [await_healthy_aux, hp]
      simp only [Bool.false_eq_true, if_false]
      rw [ih (done + 1) (slept + interval) K (by omega) (by omega)
            (by intro j hj1 hj2; exact hb j (by omega) hj2) hK]
      have h3 : K - 1 - done = (K - 1 - (done + 1)) + 1 := by omega
      have h4 : slept + interval + (K - 1 - (done + 1)) * interval =
          slept + ((K - 1 - (done + 1)) + 1) * interval := by
        rw [Nat.succ_mul]; generalize (K - 1 - (done + 1)) * interval = t; omega
      rw [h4, ← h3]

/-- Success shape of the poll loop: first success on attempt `K` means `K`
attempts and one sleep after each of the `K - 1` failures before it. -/
lemma await_healthy_success (probe : Nat → Bool) (max_attempts interval K : Nat)
    (h1 : 1 ≤ K) (h2 : K ≤ max_attempts)
    (hb : ∀ j, 1 ≤ j → j < K → probe j = false) (hK : probe K = true) :
    await_healthy probe max_attempts interval = (true, K, (K - 1) * interval) := by
  rw [await_healthy,
    await_healthy_aux_success probe interval max_attempts 0 0 K (by omega) (by omega)
      (by intro j hj1 hj2; exact hb j (by omega) hj2) hK]
  have : K - 1 - 0 = K - 1 := by omega
  rw [this]
  simp

/-- Failure shape of the poll loop: all `max_attempts` attempts fail, and a
sleep follows every failed attempt including the last one. -/
lemma await_healthy_failure (probe : Nat → Bool) (max_attempts interval : Nat)
    (h : ∀ j, 1 ≤ j → j ≤ max_attempts → probe j = false) :
    await_healthy probe max_attempts interval = (false, max_attempts, max_attempts * interval) := by
  rw [await_healthy,
    await_healthy_aux_fail probe interval max_attempts 0 0
      (by intro j hj1 hj2; exact h j (by omega) (by omega))]
  simp

/-! ## Log tails: start.py lines 603-618 and 675-690 -/

/-- Python `str.splitlines` restricted to `\n`-separated text: split on the
newline character, with no empty final piece for a trailing newline. -/
def pySplitlines (s : String) : List String :=
  let parts := s.splitOn "\n"
  match parts.getLast? with
  | some last => if last = "" then parts.dropLast else parts
  | none => parts

/-- Python `lines[-100:]` generalised: the last `n` elements of a list. -/
def lastN (n : Nat) (l : List String) : List String :=
  l.drop (l.length - n)

/-! ## Processes, events, and the `cleanup` routine: start.py lines 501-541 -/

/-- The two supervised services of `start_all`. -/
inductive Service where
  | backend
  | frontend
deriving DecidableEq

/-- Display name used in the `Stopping ...` status messages. -/
def Service.name : Service → String
  | .backend => "backend"
  | .frontend => "frontend"

/-- What `cleanup` can observe of a tracked child process:
`alive` is whether the OS process is still running when `cleanup` polls it,
`exitsOnTerm` is whether it exits within the 5-second grace period after
SIGTERM (otherwise `wait(timeout=5)` raises `TimeoutExpired` and `kill()`
follows). -/
structure ProcHandle where
  alive : Bool
  exitsOnTerm : Bool
deriving DecidableEq

/-- Observable events of the workflow: status messages (with their type
tag), raw prints, the MongoDB continue gate, log-file closes, signals sent
to children, spawns, log-tail dumps, and the final access summary. -/
inductive Event where
  | status (msg typ : String)
  | plainPrint (s : String)
  | promptContinue
  | closeLog (svc : Service)
  | sigterm (svc : Service)
  | sigkill (svc : Service)
  | spawned (svc : Service)
  | dumpTail (svc : Service) (lines : List String)
  | accessSummary (backendPort frontendPort : Nat)
deriving DecidableEq

/-- One `if <svc>_process:` block of `cleanup` (start.py:511-533): status
message, best-effort log close, then `terminate()`; `terminate` sends
SIGTERM only if the child is still running, and a child that does not exit
within the grace period gets SIGKILL. -/
def stop_events (svc : Service) (p : ProcHandle) : List Event :=
  [Event.status ("Stopping " ++ svc.name ++ "...") "INFO", Event.closeLog svc] ++
  (if p.alive then
    Event.sigterm svc :: (if p.exitsOnTerm then [] else [Event.sigkill svc])
  else [])

/-- The event trace of one `cleanup` invocation (start.py:506-536) on a
state tracking `backend` and `frontend` (each `none` when that service was
never started): backend block first, frontend block second, and
`sys.exit(0)` at the end (the exit code is attached at each call site). -/
def cleanup_events (backend frontend : Option ProcHandle) : List Event :=
  Event.status "Stopping services..." "INFO" ::
  (match backend with
   | none => []
   | some p => stop_events .backend p) ++
  (match frontend with
   | none => []
   | some p => stop_events .frontend p) ++
  [Event.status "Services stopped." "SUCCESS"]

/-- State of a handle after its `cleanup` block ran: the child is no longer
running (it exited on SIGTERM, or was SIGKILLed). -/
def stop_post (p : ProcHandle) : ProcHandle :=
  { alive := false, exitsOnTerm := p.exitsOnTerm }

/-- The tracked-process state left behind by one `cleanup` invocation. -/
def cleanup_post (backend frontend : Option ProcHandle) :
    Option ProcHandle × Option ProcHandle :=
  (backend.map stop_post, frontend.map stop_post)

/-- The termination signals (SIGTERM / SIGKILL) occurring in a trace. -/
def terminationOps (es : List Event) : List Event :=
  es.filter fun e =>
    match e with
    | .sigterm _ => true
    | .sigkill _ => true
    | _ => false

/-- Whether an event operates on the given service (log close or signal). -/
def targets (s : Service) (e : Event) : Bool :=
  match e with
  | .closeLog t => t == s
  | .sigterm t => t == s
  | .sigkill t => t == s
  | _ => false

/-- The per-service operations (close / signal) of a trace. -/
def service_ops (es : List Event) (s : Service) : List Event :=
  es.filter (targets s)

/-- The services that receive SIGTERM, in trace order. -/
def termOrder (es : List Event) : List Service :=
  es.filterMap fun e =>
    match e with
    | .sigterm t => some t
    | _ => none

/-! ## Child environments: start.py lines 566-567 and 637-639 -/

/-- One Python `env[k] = v` assignment on an environment mapping. -/
def env_set (e : String → Option String) (k v : String) : String → Option String :=
  fun x => if x = k then some v else e x

/-- `backend_env` (start.py:566-567): `os.environ.copy()` with
`SERVER_PORT` set to the allocated backend port. -/
def backend_env (environ : String → Option String) (backend_port : Nat) :
    String → Option String :=
  env_set environ "SERVER_PORT" (toString backend_port)

/-- `frontend_env` (start.py:637-639): `os.environ.copy()` with `PORT` set
to the allocated frontend port and `REACT_APP_API_URL` set to
`http://localhost:<backend_port>/api`. -/
def frontend_env (environ : String → Option String) (frontend_port backend_port : Nat) :
    String → Option String :=
  env_set (env_set environ "PORT" (toString frontend_port))
    "REACT_APP_API_URL" ("http://localhost:" ++ toString backend_port ++ "/api")

/-! ## The start-all workflow: start.py lines 469-713 -/

/-- Final state of one `start_all` run: either the process called
`sys.exit(code)`, or it reached the idle `while True: time.sleep(1)` loop
(start.py:709-711) with the given processes tracked, awaiting a signal. -/
inductive Outcome where
  | exited (code : Nat)
  | idle (backend frontend : Option ProcHandle)
deriving DecidableEq

/-- Oracle for everything `start_all` observes from the outside world.
`backendHttp k` / `frontendHttp k` is the result of the k-th readiness GET;
the `Alive` / `ExitsOnTerm` fields describe the spawned children as
`cleanup` would find them. -/
structure StartWorld where
  connectEx : Nat → Int
  mavenAvailable : Bool
  mvnwExists : Bool
  compile : RunOutcome
  backendSpawnErr : Option String
  backendAlive : Bool
  backendExitsOnTerm : Bool
  backendHttp : Nat → HttpResult
  backendLogRead : Option String
  nodeModulesExists : Bool
  npmInstall : RunOutcome
  frontendSpawnErr : Option String
  frontendAlive : Bool
  frontendExitsOnTerm : Bool
  frontendHttp : Nat → HttpResult
  frontendLogRead : Option String

/-- Maven command selection (start.py:545-553): system `mvn` if present,
else `./mvnw` if the wrapper file exists, else none (fatal). -/
def maven_choice (w : StartWorld) : Option String :=
  if w.mavenAvailable then some "mvn"
  else if w.mvnwExists then some "./mvnw"
  else none

/-- The tracked backend handle as spawned at start.py:573-580. -/
def backend_handle (w : StartWorld) : ProcHandle :=
  { alive := w.backendAlive, exitsOnTerm := w.backendExitsOnTerm }

/-- The tracked frontend handle as spawned at start.py:645-652. -/
def frontend_handle (w : StartWorld) : ProcHandle :=
  { alive := w.frontendAlive, exitsOnTerm := w.frontendExitsOnTerm }

/-- The log-dump block shared by both health-failure paths
(start.py:603-618 and 675-690): an exception while reading maps to an
error status, empty contents to a warning, and otherwise the last 100
lines of the file are printed. -/
def log_dump_events (svc : Service) (logRead : Option String) : List Event :=
  match logRead with
  | none => [Event.status "Could not read log file" "ERROR"]
  | some s =>
    if s = "" then [Event.status "No logs generated yet" "WARNING"]
    else [Event.dumpTail svc (lastN 100 (pySplitlines s))]

/-- The backend health-failure path (start.py:596-620): error statuses,
close the backend log, dump its tail, then `cleanup()` — which, with only
the backend tracked, stops just it and calls `sys.exit(0)`. -/
def backend_fail_path (w : StartWorld) : List Event × Outcome :=
  ([Event.status "Backend failed to start within 60 seconds" "ERROR",
    Event.status "Reading backend logs..." "INFO",
    Event.closeLog .backend] ++
   log_dump_events .backend w.backendLogRead ++
   cleanup_events (some (backend_handle w)) none,
   Outcome.exited 0)

/-- The frontend health-failure block (start.py:668-690): error statuses,
close the frontend log, dump its tail — and fall through (no `cleanup`). -/
def frontend_fail_events (w : StartWorld) : List Event :=
  [Event.status "Frontend failed to start within 60 seconds" "ERROR",
   Event.status "Reading frontend logs..." "INFO",
   Event.closeLog .frontend] ++
  log_dump_events .frontend w.frontendLogRead

/-- The access summary block (start.py:692-705) before the idle loop. -/
def summary_events (backend_port frontend_port : Nat) : List Event :=
  [Event.status "Medium Blog Platform is running!" "SUCCESS",
   Event.accessSummary backend_port frontend_port]

/-- The frontend phase of `start_all` (start.py:622-713): optional
`npm install` (fatal-via-`cleanup()` on failure), spawn with the frontend
environment (`cleanup()` if `Popen` raises), poll readiness 30 times, dump
the log tail on timeout without aborting, then print the summary and enter
the idle wait loop with both processes tracked. -/
def start_frontend_phase (w : StartWorld) (backend_port frontend_port : Nat) :
    List Event × Outcome :=
  let pre := [Event.status "Starting Frontend..." "INFO"]
  if !w.nodeModulesExists && !(run_command w.npmInstall false).1 then
    (pre ++ [Event.status "Installing frontend dependencies..." "INFO",
             Event.status "Failed to install frontend dependencies!" "ERROR"] ++
     cleanup_events (some (backend_handle w)) none,
     Outcome.exited 0)
  else
    let pre2 := pre ++
      (if w.nodeModulesExists then []
       else [Event.status "Installing frontend dependencies..." "INFO"])
    match w.frontendSpawnErr with
    | some e =>
      (pre2 ++ [Event.status ("Error starting frontend: " ++ e) "ERROR"] ++
       cleanup_events (some (backend_handle w)) none,
       Outcome.exited 0)
    | none =>
      let res := await_healthy (fun i => check_url (w.frontendHttp i)) 30 2
      let pollEv :=
        if res.1 then
          [Event.status ("Frontend is running on http://localhost:" ++
            toString frontend_port) "SUCCESS"]
        else frontend_fail_events w
      (pre2 ++ [Event.spawned .frontend] ++ pollEv ++
       summary_events backend_port frontend_port,
       Outcome.idle (some (backend_handle w)) (some (frontend_handle w)))

/-- The backend phase of `start_all` (start.py:565-620): spawn with the
backend environment (`sys.exit(1)` if `Popen` raises), poll readiness 30
times, and either continue to the frontend phase or take the backend
failure path. -/
def start_backend_phase (w : StartWorld) (backend_port frontend_port : Nat) :
    List Event × Outcome :=
  match w.backendSpawnErr with
  | some e => ([Event.status ("Error starting backend: " ++ e) "ERROR"], Outcome.exited 1)
  | none =>
    let res := await_healthy (fun i => check_url (w.backendHttp i)) 30 2
    if res.1 then
      let r := start_frontend_phase w backend_port frontend_port
      ([Event.spawned .backend,
        Event.status ("Backend is running on http://localhost:" ++
          toString backend_port) "SUCCESS"] ++ r.1,
       r.2)
    else
      let r := backend_fail_path w
      (Event.spawned .backend :: r.1, r.2)

/-- `start_all` (start.py:469-713): allocate both ports (fatal `exit(1)` if
either range is exhausted), advisory MongoDB gate, Maven selection (fatal),
synchronous compile (fatal with the captured stderr printed), then the
backend and frontend phases. -/
def start_all (w : StartWorld) : List Event × Outcome :=
  match find_free_port w.connectEx 8082 10 with
  | none =>
    ([Event.status "Could not find available port for backend (tried 8082-8091)" "ERROR"],
     Outcome.exited 1)
  | some backend_port =>
    match find_free_port w.connectEx 3002 10 with
    | none =>
      ([Event.status "Could not find available port for frontend (tried 3002-3011)" "ERROR"],
       Outcome.exited 1)
    | some frontend_port =>
      let mongo :=
        if test_port w.connectEx 27017 then
          [Event.status "MongoDB is running on port 27017" "SUCCESS"]
        else
          [Event.status "MongoDB is not running on port 27017" "ERROR",
           Event.promptContinue]
      match maven_choice w with
      | none =>
        (mongo ++ [Event.status "Neither Maven nor Maven wrapper found!" "ERROR"],
         Outcome.exited 1)
      | some _ =>
        let c := run_command w.compile false
        if c.1 then
          let r := start_backend_phase w backend_port frontend_port
          (mongo ++ [Event.status "Backend compiled successfully" "SUCCESS"] ++ r.1, r.2)
        else
          (mongo ++ [Event.status "Backend compilation failed!" "ERROR",
                     Event.plainPrint c.2.2],
           Outcome.exited 1)

/-! ## Characterisation of `find_free_port` -/

lemma ffp_loop_some (connectEx : Nat → Int) :
    ∀ n port p, (find_free_port_loop connectEx port n = some p ↔
      (port ≤ p ∧ p < port + n ∧ test_port connectEx p = false ∧
       ∀ q, port ≤ q → q < p → test_port connectEx q = true)) := by
  intro n
  induction n with
  | zero =>
    intro port p
    simp only [find_free_port_loop]
    constructor
    · intro h; cases h
    · rintro ⟨h1, h2, -, -⟩; omega
  | succ n ih =>
    intro port p
    cases hb : test_port connectEx port with
    | false =>
      simp only [find_free_port_loop, hb, Bool.not_false, if_true]
      constructor
      · intro h
        injection h with h
        subst h
        exact ⟨Nat.le_refl _, by omega, hb, by intro q hq1 hq2; omega⟩
      · rintro ⟨h1, h2, h3, h4⟩
        have hp : p = port := by
          by_contra hne
          have hlt : port < p := by omega
          have htrue := h4 port (Nat.le_refl _) hlt
          rw [hb] at htrue
          exact Bool.noConfusion htrue
        rw [hp]
    | true =>
      simp only [find_free_port_loop, hb, Bool.not_true, Bool.false_eq_true, if_false]
      rw [ih (port + 1) p]
      constructor
      · rintro ⟨h1, h2, h3, h4⟩
        refine ⟨by omega, by omega, h3, ?_⟩
        intro q hq1 hq2
        rcases Nat.lt_or_ge q (port + 1) with h | h
        · have hq : q = port := by omega
          rw [hq]; exact hb
        · exact h4 q h hq2
      · rintro ⟨h1, h2, h3, h4⟩
        have hne : p ≠ port := by
          intro he
          rw [he, hb] at h3
          exact Bool.noConfusion h3
        exact ⟨by omega, by omega, h3, fun q hq1 hq2 => h4 q (by omega) hq2⟩

lemma ffp_loop_none (connectEx : Nat → Int) :
    ∀ n port, (find_free_port_loop connectEx port n = none ↔
      ∀ q, port ≤ q → q < port + n → test_port connectEx q = true) := by
  intro n
  induction n with
  | zero =>
    intro port
    simp only [find_free_port_loop]
    constructor
    · intro _ q hq1 hq2; omega
    · intro _; trivial
  | succ n ih =>
    intro port
    cases hb : test_port connectEx port with
    | false =>
      simp only [find_free_port_loop, hb, Bool.not_false, if_true]
      constructor
      · intro h; cases h
      · intro h
        have htrue := h port (Nat.le_refl _) (by omega)
        rw [hb] at htrue
        exact Bool.noConfusion htrue
    | true =>
      simp only [find_free_port_loop, hb, Bool.not_true, Bool.false_eq_true, if_false]
      rw [ih (port + 1)]
      constructor
      · intro h q hq1 hq2
        rcases Nat.lt_or_ge q (port + 1) with hc | hc
        · have hq : q = port := by omega
          rw [hq]; exact hb
        · exact h q hc (by omega)
      · intro h q hq1 hq2
        exact h q (by omega) (by omega)

/-- The connect-result oracle of the spec scenario: ports 8082, 8083 and
8084 are occupied (connect result 0), every other port is free. -/
def scenarioConnect : Nat → Int :=
  fun p => if p == 8082 || p == 8083 || p == 8084 then 0 else 1

/-- **C4**: `find_free_port` scans `start, start+1, ..., start+max_attempts-1`
ascending and returns the first port whose `test_port` is false (so every
earlier port in the range tested true); it returns `none` iff every port in
the range is occupied; and in the spec scenario starting at 8082 with
8082-8084 occupied it returns 8085. -/
theorem find_free_port_spec :
    (∀ (connectEx : Nat → Int) (start_port max_attempts p : Nat),
      find_free_port connectEx start_port max_attempts = some p ↔
        (start_port ≤ p ∧ p < start_port + max_attempts ∧
         test_port connectEx p = false ∧
         ∀ q, start_port ≤ q → q < p → test_port connectEx q = true)) ∧
    (∀ (connectEx : Nat → Int) (start_port max_attempts : Nat),
      find_free_port connectEx start_port max_attempts = none ↔
        ∀ q, start_port ≤ q → q < start_port + max_attempts →
          test_port connectEx q = true) ∧
    find_free_port scenarioConnect 8082 10 = some 8085 := by
  refine ⟨?_, ?_, by decide⟩
  · intro cE s m p
    exact ffp_loop_some cE m s p
  · intro cE s m
    exact ffp_loop_none cE m s

/-- **C5**: `check_url` is total (it is a Lean function, so it never
raises), returns true exactly when the GET completed with status 200, and
returns false on every exception. -/
theorem check_url_spec (r : HttpResult) :
    (check_url r = true ↔ r = HttpResult.response 200) ∧
    check_url HttpResult.exn = false := by
  refine ⟨?_, rfl⟩
  cases r with
  | response s => simp [check_url]
  | exn => simp [check_url]

/-- **C10**: `run_command` is total; when the subprocess machinery raises
it returns `(False, "", str(e))`, and otherwise `(returncode == 0, stdout,
stderr)`, with empty stdout/stderr strings when `show_output` is true. -/
theorem run_command_spec (outcome : RunOutcome) (show_output : Bool) :
    (∀ e, outcome = RunOutcome.raised e →
      run_command outcome show_output = (false, "", e)) ∧
    (∀ r, outcome = RunOutcome.completed r → show_output = true →
      run_command outcome show_output = ((r.returncode == 0), "", "")) ∧
    (∀ r, outcome = RunOutcome.completed r → show_output = false →
      run_command outcome show_output = ((r.returncode == 0), r.stdout, r.stderr)) := by
  refine ⟨?_, ?_, ?_⟩
  · intro e h
    rw [h]; rfl
  · intro r h hs
    rw [h, hs]; rfl
  · intro r h hs
    rw [h, hs]; rfl

/-- Witness for C10 at a concrete raised exception. -/
theorem run_command_spec_witness :
    run_command (RunOutcome.raised "boom") true = (false, "", "boom") :=
  (run_command_spec (RunOutcome.raised "boom") true).1 "boom" rfl

/-- **C3 counterexample**: with a probe that fails on all 30 attempts, the
loop sleeps after every failed attempt including the last, so it sleeps
`30 * 2 = 60` seconds — not `(attempts_made - 1) * interval = 58` as the
claim states for the exhaustion case. -/
theorem await_healthy_sleep_cex :
    await_healthy (fun _ => false) 30 2 = (false, 30, 60) ∧
    (60 : Nat) ≠ (30 - 1) * 2 :=
  ⟨by decide, by decide⟩

/-- **C3 amended**: if the probe first succeeds on attempt `K ≤
max_attempts`, the loop returns true having made `K` attempts and slept
`(K - 1) * interval`; if the probe fails on all attempts it returns false
having made `max_attempts` attempts and slept `max_attempts * interval`
(one sleep after every failed attempt, including the last). -/
theorem await_healthy_spec (probe : Nat → Bool) (max_attempts interval : Nat) :
    (∀ K, 1 ≤ K → K ≤ max_attempts → probe K = true →
      (∀ j, 1 ≤ j → j < K → probe j = false) →
      await_healthy probe max_attempts interval = (true, K, (K - 1) * interval)) ∧
    ((∀ j, 1 ≤ j → j ≤ max_attempts → probe j = false) →
      await_healthy probe max_attempts interval =
        (false, max_attempts, max_attempts * interval)) := by
  constructor
  · intro K h1 h2 hK hb
    exact await_healthy_success probe max_attempts interval K h1 h2 hb hK
  · intro h
    exact await_healthy_failure probe max_attempts interval h

/-- Witness for C3 at the spec scenario: success on the 3rd attempt after
two failures gives 3 attempts and 4 seconds of sleep. -/
theorem await_healthy_spec_witness :
    await_healthy (fun j => Nat.ble 3 j) 30 2 = (true, 3, 4) := by
  have h := (await_healthy_spec (fun j => Nat.ble 3 j) 30 2).1 3 (by omega) (by omega)
    (by decide) (by intro j h1 h2; interval_cases j <;> rfl)
  exact h

/-! ## Claims about `cleanup` -/

/-- **C2 counterexample**: on a state where both services are tracked and
running, `cleanup` sends SIGTERM to the backend first and the frontend
second (start.py:511-533 handles `backend_process` before
`frontend_process`), so the frontend is not terminated before the
backend. -/
theorem cleanup_order_cex :
    termOrder (cleanup_events (some ⟨true, true⟩) (some ⟨true, true⟩)) =
      [Service.backend, Service.frontend] ∧
    [Service.backend, Service.frontend] ≠ [Service.frontend, Service.backend] :=
  ⟨by decide, by decide⟩

/-- **C2 amended**: `cleanup` stops the tracked processes in start order —
the backend is terminated before the frontend — and both tracked running
processes receive their termination signal, whatever the grace-period
escalation of each turns out to be (log-close failures are swallowed by
the surrounding `try/except`). -/
theorem cleanup_order_spec (pb pf : ProcHandle)
    (hb : pb.alive = true) (hf : pf.alive = true) :
    termOrder (cleanup_events (some pb) (some pf)) =
      [Service.backend, Service.frontend] := by
  cases hpb : pb.exitsOnTerm <;> cases hpf : pf.exitsOnTerm <;>
    simp [cleanup_events, stop_events, termOrder, hb, hf, hpb, hpf]

/-- Witness for C2 (amended) on concrete handles, one of which needs the
SIGKILL escalation. -/
theorem cleanup_order_spec_witness :
    termOrder (cleanup_events (some ⟨true, false⟩) (some ⟨true, true⟩)) =
      [Service.backend, Service.frontend] :=
  cleanup_order_spec ⟨true, false⟩ ⟨true, true⟩ rfl rfl

/-- **C6**: running `cleanup` again on the state left by a first
invocation (both tracked children already stopped) sends no termination
signal: `Popen.terminate` polls the child first and does nothing once it
has exited, and `wait(timeout=5)` returns the cached return code at once,
so no `kill` follows.  Totality of the model is the "raises no error"
part. -/
theorem cleanup_second_call_spec (backend frontend : Option ProcHandle) :
    terminationOps
      (cleanup_events (cleanup_post backend frontend).1
        (cleanup_post backend frontend).2) = [] := by
  cases backend <;> cases frontend <;>
    simp [cleanup_post, stop_post, cleanup_events, stop_events, terminationOps]

/-- No per-service operation of `stop_events` touches the other service. -/
lemma service_ops_stop_events_ne (svc svc2 : Service) (p : ProcHandle)
    (h : svc ≠ svc2) :
    service_ops (stop_events svc p) svc2 = [] := by
  have hbeq : (svc == svc2) = false := by
    cases svc <;> cases svc2 <;> first | rfl | exact absurd rfl h
  cases hp : p.alive <;> cases hq : p.exitsOnTerm <;>
    simp [stop_events, service_ops, targets, hp, hq, hbeq]

/-- **C9**: `cleanup` is safe when only a subset of the services (or none)
were started: a service whose process variable is still `None` receives no
termination or log-close operation, and with nothing started the trace is
just the two status messages.  Totality is the "no error is raised"
part. -/
theorem cleanup_subset_spec (backend frontend : Option ProcHandle) :
    (backend = none → service_ops (cleanup_events backend frontend) .backend = []) ∧
    (frontend = none → service_ops (cleanup_events backend frontend) .frontend = []) ∧
    cleanup_events none none =
      [Event.status "Stopping services..." "INFO",
       Event.status "Services stopped." "SUCCESS"] := by
  refine ⟨?_, ?_, rfl⟩
  · intro h
    subst h
    cases frontend with
    | none => simp [cleanup_events, service_ops, targets]
    | some p =>
      have hne : Service.frontend ≠ Service.backend := by decide
      have := service_ops_stop_events_ne .frontend .backend p hne
      simp [cleanup_events, service_ops, targets] at this ⊢
      simpa [service_ops, List.filter_append] using this
  · intro h
    subst h
    cases backend with
    | none => simp [cleanup_events, service_ops, targets]
    | some p =>
      have hne : Service.backend ≠ Service.frontend := by decide
      have := service_ops_stop_events_ne .backend .frontend p hne
      simp [cleanup_events, service_ops, targets] at this ⊢
      simpa [service_ops, List.filter_append] using this

/-- Witness for C9: frontend-only and backend-only states raise no
operation on the never-started service. -/
theorem cleanup_subset_spec_witness :
    service_ops (cleanup_events none (some ⟨true, true⟩)) Service.backend = [] ∧
    service_ops (cleanup_events (some ⟨true, true⟩) none) Service.frontend = [] :=
  ⟨(cleanup_subset_spec none (some ⟨true, true⟩)).1 rfl,
   (cleanup_subset_spec (some ⟨true, true⟩) none).2.1 rfl⟩

/-! ## Claim about the child environments -/

/-- **C8**: each child is spawned with the inherited environment plus
exactly its overrides: the backend gets `SERVER_PORT = <backend_port>`,
the frontend gets `PORT = <frontend_port>` and
`REACT_APP_API_URL = http://localhost:<backend_port>/api`; every other
variable is unchanged. -/
theorem spawn_env_spec (environ : String → Option String)
    (backend_port frontend_port : Nat) (k : String)
    (h1 : k ≠ "SERVER_PORT") (h2 : k ≠ "PORT") (h3 : k ≠ "REACT_APP_API_URL") :
    backend_env environ backend_port "SERVER_PORT" = some (toString backend_port) ∧
    backend_env environ backend_port k = environ k ∧
    frontend_env environ frontend_port backend_port "PORT" = some (toString frontend_port) ∧
    frontend_env environ frontend_port backend_port "REACT_APP_API_URL" =
      some ("http://localhost:" ++ toString backend_port ++ "/api") ∧
    frontend_env environ frontend_port backend_port k = environ k := by
  refine ⟨?_, ?_, ?_, ?_, ?_⟩
  · simp [backend_env, env_set]
  · simp [backend_env, env_set, h1]
  · simp [frontend_env, env_set]
  · simp [frontend_env, env_set]
  · simp [frontend_env, env_set, h2, h3]

/-- Witness for C8 at a concrete environment, concrete ports and the
untouched variable `HOME`. -/
theorem spawn_env_spec_witness :
    backend_env (fun _ => none) 8082 "SERVER_PORT" = some "8082" ∧
    backend_env (fun _ => none) 8082 "HOME" = none ∧
    frontend_env (fun _ => none) 3002 8082 "PORT" = some "3002" ∧
    frontend_env (fun _ => none) 3002 8082 "REACT_APP_API_URL" =
      some "http://localhost:8082/api" ∧
    frontend_env (fun _ => none) 3002 8082 "HOME" = none := by
  have h := spawn_env_spec (fun _ => none) 8082 3002 "HOME"
    (by decide) (by decide) (by decide)
  exact ⟨h.1, h.2.1, h.2.2.1, h.2.2.2.1, h.2.2.2.2⟩

/-! ## Claims about the start-all workflow -/

/-- A concrete world in which everything succeeds up to the backend
readiness poll, and every backend readiness GET raises (connection
refused): ports 8082/3002 are free, MongoDB answers on 27017, Maven is
installed, the compile succeeds, both spawns succeed, both log files read
back non-empty contents, and no HTTP endpoint ever answers. -/
def w0 : StartWorld :=
  ⟨fun p => if p == 27017 then 0 else 1,
   true, false,
   RunOutcome.completed ⟨0, "", ""⟩,
   none, true, true,
   fun _ => HttpResult.exn,
   some "boom",
   true,
   RunOutcome.completed ⟨0, "", ""⟩,
   none, true, true,
   fun _ => HttpResult.exn,
   some "oops"⟩

/-- **C1 counterexample**: when the backend health check exhausts all 30
attempts, `start_all` ends in the `cleanup()` call at start.py:620, whose
last statement is `sys.exit(0)` — the process exits with code 0, not with
a non-zero code. -/
theorem backend_timeout_exit_cex :
    (start_all w0).2 = Outcome.exited 0 ∧
    ¬ ∃ c, c ≠ 0 ∧ (start_all w0).2 = Outcome.exited c := by
  have h : (start_all w0).2 = Outcome.exited 0 := by decide
  refine ⟨h, ?_⟩
  rintro ⟨c, hc, h2⟩
  rw [h] at h2
  injection h2 with h3
  exact hc h3.symm

/-- **C1 amended**: when the backend health check exhausts all 30 attempts
the workflow prints the last 100 lines of `backend/startup.log`, shuts the
started backend process down (SIGTERM via `cleanup`), and the process
exits with exit code 0. -/
theorem backend_timeout_spec (w : StartWorld) (bp fp : Nat) (mc s : String)
    (hfb : find_free_port w.connectEx 8082 10 = some bp)
    (hff : find_free_port w.connectEx 3002 10 = some fp)
    (hm : maven_choice w = some mc)
    (hc : (run_command w.compile false).1 = true)
    (hsp : w.backendSpawnErr = none)
    (hpr : ∀ i, 1 ≤ i → i ≤ 30 → check_url (w.backendHttp i) = false)
    (halive : w.backendAlive = true)
    (hlog : w.backendLogRead = some s)
    (hne : s ≠ "") :
    (start_all w).2 = Outcome.exited 0 ∧
    Event.dumpTail .backend (lastN 100 (pySplitlines s)) ∈ (start_all w).1 ∧
    Event.sigterm .backend ∈ (start_all w).1 := by
  have hpoll := await_healthy_failure (fun i => check_url (w.backendHttp i)) 30 2 hpr
  refine ⟨?_, ?_, ?_⟩ <;>
    simp [start_all, start_backend_phase, backend_fail_path, log_dump_events,
      cleanup_events, stop_events, backend_handle, hfb, hff, hm, hc, hsp, hpoll,
      halive, hlog, hne]

/-- Witness for C1 (amended) at the concrete world `w0`. -/
theorem backend_timeout_spec_witness :
    (start_all w0).2 = Outcome.exited 0 ∧
    Event.dumpTail Service.backend (lastN 100 (pySplitlines "boom")) ∈ (start_all w0).1 ∧
    Event.sigterm Service.backend ∈ (start_all w0).1 :=
  backend_timeout_spec w0 8082 3002 "mvn" "boom" (by decide) (by decide) rfl rfl rfl
    (by intro i _ _; rfl) rfl rfl (by decide)

/-- **C7**: when the frontend health check exhausts its 30-attempt budget,
the workflow prints the last 100 lines of `frontend/startup.log` but does
not abort: no termination signal is sent, the access summary is printed,
and the idle wait loop is entered with both processes still tracked —
whereas a backend health-check timeout (the `w2` half) aborts the
workflow with `sys.exit`. -/
theorem frontend_timeout_spec (w w2 : StartWorld) (bp fp bp2 fp2 : Nat) (mc mc2 s : String)
    (hfb : find_free_port w.connectEx 8082 10 = some bp)
    (hff : find_free_port w.connectEx 3002 10 = some fp)
    (hm : maven_choice w = some mc)
    (hc : (run_command w.compile false).1 = true)
    (hsp : w.backendSpawnErr = none)
    (hbs : (await_healthy (fun i => check_url (w.backendHttp i)) 30 2).1 = true)
    (hnm : w.nodeModulesExists = true)
    (hfsp : w.frontendSpawnErr = none)
    (hfpr : ∀ i, 1 ≤ i → i ≤ 30 → check_url (w.frontendHttp i) = false)
    (hflog : w.frontendLogRead = some s)
    (hfne : s ≠ "")
    (hfb2 : find_free_port w2.connectEx 8082 10 = some bp2)
    (hff2 : find_free_port w2.connectEx 3002 10 = some fp2)
    (hm2 : maven_choice w2 = some mc2)
    (hc2 : (run_command w2.compile false).1 = true)
    (hsp2 : w2.backendSpawnErr = none)
    (hpr2 : ∀ i, 1 ≤ i → i ≤ 30 → check_url (w2.backendHttp i) = false) :
    (start_all w).2 =
      Outcome.idle (some (backend_handle w)) (some (frontend_handle w)) ∧
    Event.dumpTail .frontend (lastN 100 (pySplitlines s)) ∈ (start_all w).1 ∧
    Event.accessSummary bp fp ∈ (start_all w).1 ∧
    terminationOps (start_all w).1 = [] ∧
    (start_all w2).2 = Outcome.exited 0 := by
  have hfpoll := await_healthy_failure (fun i => check_url (w.frontendHttp i)) 30 2 hfpr
  have hpoll2 := await_healthy_failure (fun i => check_url (w2.backendHttp i)) 30 2 hpr2
  refine ⟨?_, ?_, ?_, ?_, ?_⟩
  · simp [start_all, start_backend_phase, start_frontend_phase, hfb, hff, hm, hc,
      hsp, hbs, hnm, hfsp, hfpoll]
  · simp [start_all, start_backend_phase, start_frontend_phase, frontend_fail_events,
      log_dump_events, summary_events, hfb, hff, hm, hc, hsp, hbs, hnm, hfsp,
      hfpoll, hflog, hfne]
  · simp [start_all, start_backend_phase, start_frontend_phase, frontend_fail_events,
      log_dump_events, summary_events, hfb, hff, hm, hc, hsp, hbs, hnm, hfsp,
      hfpoll, hflog, hfne]
  · cases hmongo : test_port w.connectEx 27017 <;>
      simp [start_all, start_backend_phase, start_frontend_phase, frontend_fail_events,
        log_dump_events, summary_events, terminationOps, hfb, hff, hm, hc, hsp, hbs,
        hnm, hfsp, hfpoll, hflog, hfne, hmongo]
  · simp [start_all, start_backend_phase, backend_fail_path, hfb2, hff2, hm2, hc2,
      hsp2, hpoll2]

/-- Like `w0`, but the backend readiness GET answers 200 immediately while
every frontend readiness GET raises. -/
def w1 : StartWorld :=
  ⟨fun p => if p == 27017 then 0 else 1,
   true, false,
   RunOutcome.completed ⟨0, "", ""⟩,
   none, true, true,
   fun _ => HttpResult.response 200,
   some "boom",
   true,
   RunOutcome.completed ⟨0, "", ""⟩,
   none, true, true,
   fun _ => HttpResult.exn,
   some "oops"⟩

/-- A world whose backend readiness GET never answers (for the abort half
of the C7 witness). -/
def w2fail : StartWorld :=
  ⟨fun p => if p == 27017 then 0 else 1,
   true, false,
   RunOutcome.completed ⟨0, "", ""⟩,
   none, true, true,
   fun _ => HttpResult.exn,
   some "logs",
   true,
   RunOutcome.completed ⟨0, "", ""⟩,
   none, true, true,
   fun _ => HttpResult.exn,
   some "logs"⟩

/-- Witness for C7 at concrete worlds: frontend timeout dumps the log tail
and still reaches the idle loop with both processes tracked and no
termination signal sent, while a backend timeout exits. -/
theorem frontend_timeout_spec_witness :
    (start_all w1).2 = Outcome.idle (some ⟨true, true⟩) (some ⟨true, true⟩) ∧
    Event.dumpTail Service.frontend (lastN 100 (pySplitlines "oops")) ∈ (start_all w1).1 ∧
    Event.accessSummary 8082 3002 ∈ (start_all w1).1 ∧
    terminationOps (start_all w1).1 = [] ∧
    (start_all w2fail).2 = Outcome.exited 0 :=
  frontend_timeout_spec w1 w2fail 8082 3002 8082 3002 "mvn" "mvn" "oops"
    (by decide) (by decide) rfl rfl rfl (by decide) rfl rfl
    (by intro i _ _; rfl) rfl (by decide)
    (by decide) (by decide) rfl rfl rfl (by intro i _ _; rfl)

end StartScript
